import Mathlib

/-!
Shallow embedding of the SEC 8-K disclosure-correlation engine
(`backend/app/services/sec_8k.py`) and proofs about its claims.

Python strings are modelled as Lean `String` (operations work on `String.data`,
the underlying character list; `str.upper` is modelled on the ASCII letters the
engine actually handles).  Python `datetime.date` values are modelled as their
proleptic-Gregorian ordinal (`date.toordinal`), so `d1 - d2` in days is ordinal
subtraction.  Python dicts built by the engine are modelled as fixed-field
structures with `Option` fields for keys that may be absent/`None`.
-/

set_option maxRecDepth 100000

namespace SEC8K

/-- Python whitespace characters: the `\s` regex class and the default
`str.strip` characters. -/
def isPySpace (c : Char) : Bool :=
  c == ' ' || c == '\t' || c == '\n' || c == '\r' || c == '\x0b' || c == '\x0c'

/-- ASCII uppercasing, the fragment of Python `str.upper` the engine relies on. -/
def asciiUpper (c : Char) : Char :=
  if c.toNat ≥ 97 && c.toNat ≤ 122 then Char.ofNat (c.toNat - 32) else c

/-- Drop leading characters satisfying `p` from the right end. -/
def dropRightWhileP (p : Char → Bool) (l : List Char) : List Char :=
  ((l.reverse).dropWhile p).reverse

/-- Python `str.strip()` on a character list. -/
def stripChars (l : List Char) : List Char :=
  dropRightWhileP isPySpace (l.dropWhile isPySpace)

/-- Does `hay` start with `needle`? -/
def listStartsWith : List Char → List Char → Bool
  | _, [] => true
  | [], _ :: _ => false
  | c :: cs, d :: ds => c == d && listStartsWith cs ds

/-- Does `hay` end with `needle`? -/
def listEndsWith (hay needle : List Char) : Bool :=
  listStartsWith hay.reverse needle.reverse

/-- Does `hay` contain `needle` as a contiguous substring (Python `needle in hay`)? -/
def listHasSub : List Char → List Char → Bool
  | [], needle => needle.isEmpty
  | h :: t, needle => listStartsWith (h :: t) needle || listHasSub t needle

/-- Python `needle in hay` on strings. -/
def pyIn (needle hay : String) : Bool :=
  listHasSub hay.data needle.data

/-- Python `str.strip()`. -/
def pyStrip (s : String) : String :=
  ⟨stripChars s.data⟩

/-- `re.sub(r'[,\s]+SUF$', '', name)`: remove one trailing occurrence of the
suffix when it is immediately preceded by at least one comma or whitespace
character, together with that separator run. -/
def stripSufComma (suf : List Char) (name : List Char) : List Char :=
  if listEndsWith name suf then
    let rest := name.take (name.length - suf.length)
    let rest2 := dropRightWhileP (fun c => c == ',' || isPySpace c) rest
    if rest2.length < rest.length then rest2 else name
  else name

/-- `re.sub(r'\s+SUF\s*$', '', name)`: remove one trailing occurrence of the
suffix (with any trailing whitespace after it) when it is immediately preceded
by at least one whitespace character. -/
def stripSufSpace (suf : List Char) (name : List Char) : List Char :=
  let t := dropRightWhileP isPySpace name
  if listEndsWith t suf then
    let rest := t.take (t.length - suf.length)
    let rest2 := dropRightWhileP isPySpace rest
    if rest2.length < rest.length then rest2 else name
  else name

/-- The corporate-suffix list of `_normalize_name`, in source order. -/
def corpSuffixes : List String :=
  ["INC", "INC.", "INCORPORATED",
   "CORP", "CORP.", "CORPORATION",
   "LLC", "L.L.C.",
   "LTD", "LTD.", "LIMITED",
   "CO", "CO.", "COMPANY",
   "S.A.", "SA",
   "PLC", "P.L.C.",
   "N.V.", "NV",
   "AG", "A.G.",
   "GMBH",
   "HOLDINGS", "HOLDING",
   "GROUP", "INTERNATIONAL", "INTL"]

/-- The suffix-stripping loop of `_normalize_name`: for each suffix in order,
apply both anchored substitutions in sequence. -/
def stripSuffixes (name : List Char) : List Char :=
  corpSuffixes.foldl (fun n s => stripSufSpace s.data (stripSufComma s.data n)) name

/-- The punctuation class `[.,'"()&]` of `_normalize_name`. -/
def isNamePunct (c : Char) : Bool :=
  c == '.' || c == ',' || c == Char.ofNat 39 || c == Char.ofNat 34 ||
  c == '(' || c == ')' || c == '&'

/-- Collapse runs of adjacent spaces to a single space (the `\s+` → `' '`
substitution, applied after every whitespace character has been mapped to a
plain space). -/
def squashSpaces : List Char → List Char
  | [] => []
  | [c] => [c]
  | a :: b :: t =>
    if a == ' ' && b == ' ' then squashSpaces (b :: t)
    else a :: squashSpaces (b :: t)

/-- `SEC8KTracker._normalize_name`: uppercase and strip, strip corporate
suffixes, replace punctuation by spaces, collapse whitespace, strip. -/
def _normalize_name (name : String) : String :=
  let n := stripChars (name.data.map asciiUpper)
  let n := stripSuffixes n
  let n := n.map (fun c => if isNamePunct c then ' ' else if isPySpace c then ' ' else c)
  let n := squashSpaces n
  ⟨stripChars n⟩

example : _normalize_name "Acme, Inc." = "ACME" := by decide
example : _normalize_name "ACME INC" = "ACME" := by decide
example : _normalize_name "GLOBAL CORP" = "GLOBAL" := by decide

/-! ## Dates

A Python `datetime.date` is modelled as its proleptic-Gregorian ordinal
(`date.toordinal`, day 1 = 0001-01-01): date comparison is ordinal comparison,
`(d1 - d2).days` is ordinal subtraction, and `d - timedelta(days=n)` is
ordinal subtraction of `n`. -/

abbrev PyDate := Int

def isLeapYear (y : Nat) : Bool :=
  y % 4 == 0 && (y % 100 != 0 || y % 400 == 0)

def daysInMonth (y m : Nat) : Nat :=
  if m == 2 then (if isLeapYear y then 29 else 28)
  else if m == 4 || m == 6 || m == 9 || m == 11 then 30
  else 31

def daysBeforeMonth (y m : Nat) : Nat :=
  (List.range (m - 1)).foldl (fun acc i => acc + daysInMonth y (i + 1)) 0

/-- `datetime.date(y, m, d).toordinal()` for a valid proleptic-Gregorian date. -/
def dateOrdinal (y m d : Nat) : PyDate :=
  ((365 * (y - 1) + (y - 1) / 4 - (y - 1) / 100 + (y - 1) / 400
    + daysBeforeMonth y m + d : Nat) : Int)

example : dateOrdinal 2025 1 10 - dateOrdinal 2025 1 5 = 5 := by decide
example : dateOrdinal 2025 1 1 - dateOrdinal 2025 1 5 = -4 := by decide
example : dateOrdinal 1 1 1 = 1 := by decide

def allDigits (l : List Char) : Bool :=
  !l.isEmpty && l.all (fun c => c.isDigit)

def digitsToNat (l : List Char) : Nat :=
  l.foldl (fun a c => a * 10 + (c.toNat - 48)) 0

/-- Split a character list on `'-'` (Python `s.split("-")` semantics:
empty pieces are kept). -/
def splitDashAux : List Char → List Char → List String
  | [], cur => [⟨cur.reverse⟩]
  | c :: t, cur =>
    if c == '-' then ⟨cur.reverse⟩ :: splitDashAux t []
    else splitDashAux t (c :: cur)

def splitDash (s : String) : List String :=
  splitDashAux s.data []

example : splitDash "2025-01-10" = ["2025", "01", "10"] := by decide

/-- `SEC8KTracker._parse_date`: `datetime.strptime(s, "%Y-%m-%d").date()`,
returning `None` on failure.  Successful parses are returned as ordinals. -/
def _parse_date (s : String) : Option PyDate :=
  match splitDash s with
  | [ys, ms, ds] =>
    if allDigits ys.data && allDigits ms.data && allDigits ds.data then
      let y := digitsToNat ys.data
      let m := digitsToNat ms.data
      let d := digitsToNat ds.data
      if 1 ≤ y && y ≤ 9999 && 1 ≤ m && m ≤ 12 && 1 ≤ d && d ≤ daysInMonth y m then
        some (dateOrdinal y m d)
      else none
    else none
  | _ => none

example : _parse_date "2025-01-10" = some (dateOrdinal 2025 1 10) := by decide
example : _parse_date "not a date" = none := by decide
example : _parse_date "2025-02-30" = none := by decide

/-! ## EDGAR filings (`SECEdgarFiling`, `find_cybersecurity_8k`) -/

structure SECEdgarFiling where
  cik : String
  accession_number : String
  filing_date : PyDate
  form_type : String
  primary_document : String
  items : List String
deriving DecidableEq, Repr

def removeDashes (s : String) : String :=
  ⟨s.data.filter (fun c => c != '-')⟩

/-- `SECEdgarFiling.filing_url` (derived property). -/
def SECEdgarFiling.filing_url (f : SECEdgarFiling) : String :=
  "https://www.sec.gov/Archives/edgar/data/" ++ f.cik ++ "/" ++
    removeDashes f.accession_number ++ "/" ++ f.primary_document

/-- The inner loop of `find_cybersecurity_8k`: does some item code of the
filing contain `"1.05"` as a substring (Python `"1.05" in item`)? -/
def filingHas105 (f : SECEdgarFiling) : Bool :=
  f.items.any (fun it => pyIn "1.05" it)

/-- Is the filing skipped by the `after_date` filter
(`if after_date and filing.filing_date < after_date: continue`)? -/
def skippedByAfter (after_date : Option PyDate) (f : SECEdgarFiling) : Bool :=
  match after_date with
  | some a => decide (f.filing_date < a)
  | none => false

/-- `SECEdgarClient.find_cybersecurity_8k`: first filing in list order that
passes the `after_date` filter and has an item containing `"1.05"`. -/
def find_cybersecurity_8k (filings : List SECEdgarFiling)
    (after_date : Option PyDate) : Option SECEdgarFiling :=
  match filings with
  | [] => none
  | f :: rest =>
    if skippedByAfter after_date f then find_cybersecurity_8k rest after_date
    else if filingHas105 f then some f
    else find_cybersecurity_8k rest after_date

/-! ## Tracker incidents (`SEC8KIncident`, `find_match`) -/

structure SEC8KIncident where
  company_name : String
  disclosure_date : PyDate
  last_update : PyDate
  detail_url : String
  cik : Option String := none
deriving DecidableEq, Repr

/-- Python `str.split()` with no separator: split on whitespace runs,
producing no empty tokens. -/
def splitWsAux : List Char → List Char → List String
  | [], cur => if cur.isEmpty then [] else [⟨cur.reverse⟩]
  | c :: t, cur =>
    if isPySpace c then
      if cur.isEmpty then splitWsAux t []
      else ⟨cur.reverse⟩ :: splitWsAux t []
    else splitWsAux t (c :: cur)

def pySplitWs (s : String) : List String :=
  splitWsAux s.data []

example : pySplitWs "  A  B C " = ["A", "B", "C"] := by decide

/-- The stoplist of `find_match` (`common_words`). -/
def stopWords : List String := ["THE", "AND", "OF", "FOR", "A", "AN"]

/-- `set(normalized.split()) - common_words`, as a duplicate-free list. -/
def sigWords (normalized : String) : List String :=
  ((pySplitWs normalized).dedup).filter (fun w => !(stopWords.contains w))

/-- One iteration of the `find_match` loop: does the incident's normalized
name match the normalized query under any of the four rules, in source
order (exact, query-in-incident, incident-in-query, word overlap)? -/
def nameMatches (ns ni : String) : Bool :=
  ns == ni || pyIn ns ni || pyIn ni ns ||
    (let sw := sigWords ns
     let iw := sigWords ni
     decide (2 ≤ sw.length) && decide (2 ≤ iw.length) &&
       decide (2 ≤ (sw.filter (fun w => iw.contains w)).length))

/-- `SEC8KTracker.find_match`: first incident in listed order whose
normalized name matches the normalized query. -/
def find_match (company_name : String) (incidents : List SEC8KIncident) :
    Option SEC8KIncident :=
  let ns := _normalize_name company_name
  incidents.find? (fun inc => nameMatches ns (_normalize_name inc.company_name))

/-! ## Tracker cache (`SEC8KTracker.fetch_incidents`)

The tracker client's mutable state (`_cache`, `_cache_time`) is passed
explicitly; wall-clock time is a `Nat` number of seconds; the network layer's
behaviour at the moment of the call (HTTP failure, page without a table, or a
parsed table's rows) is an explicit parameter.  `fetch_incidents` returns the
incident list, the successor state, and whether a network request was issued. -/

/-- `timedelta(hours=24)` in seconds. -/
def CACHE_TTL : Nat := 24 * 60 * 60

/-- An `<a>` element inside the company cell. -/
structure TLink where
  text : String
  href : String
deriving DecidableEq, Repr

/-- A `<td>` cell: its text and its first `<a>` child, if any. -/
structure TCell where
  text : String
  link : Option TLink := none
deriving DecidableEq, Repr

/-- A `<tr>` row as its list of `<td>` cells. -/
abbrev TRow := List TCell

/-- What the network + HTML parsing layer yields for one tracker fetch:
an HTTP/network failure, a page with no `<table>`, or the table's rows
(header row included). -/
inductive TrackerResp where
  | fail : TrackerResp
  | page : Option (List TRow) → TrackerResp
deriving DecidableEq, Repr

structure TrackerState where
  cache : List SEC8KIncident
  cache_time : Option Nat
deriving DecidableEq, Repr

/-- The row-parsing body of the `for row in rows` loop (lines 277–303):
rows with fewer than 3 cells, no parseable disclosure date, or an empty
company name are discarded. -/
def parseRow (row : TRow) : Option SEC8KIncident :=
  match row with
  | c0 :: c1 :: c2 :: _ =>
    let last_update := _parse_date (pyStrip c0.text)
    let disclosure_date := _parse_date (pyStrip c1.text)
    let nameUrl : String × String :=
      match c2.link with
      | some l =>
        let href := l.href
        let detail_url :=
          if href != "" && !listStartsWith href.data "http".data then
            "https://www.board-cybersecurity.com/incidents/tracker/" ++ href
          else href
        (pyStrip l.text, detail_url)
      | none => (pyStrip c2.text, "")
    match disclosure_date with
    | some dd =>
      if nameUrl.1 != "" then
        some { company_name := nameUrl.1, disclosure_date := dd,
               last_update := last_update.getD dd, detail_url := nameUrl.2 }
      else none
    | none => none
  | _ => none

/-- `SEC8KTracker._cache if SEC8KTracker._cache else []`: the stale-cache
fallback returned on fetch failure. -/
def staleReturn (st : TrackerState) : List SEC8KIncident :=
  if st.cache.isEmpty then [] else st.cache

/-- The cache-freshness test (line 246–247): Python's `self._cache` truthiness
means the check only passes for a NONEMPTY cache. -/
def cacheFresh (st : TrackerState) (now : Nat) : Bool :=
  !st.cache.isEmpty &&
    (match st.cache_time with
     | some t => decide (now - t < CACHE_TTL)
     | none => false)

/-- `SEC8KTracker.fetch_incidents`.  Returns
`(result, new state, network request issued)`. -/
def fetch_incidents (st : TrackerState) (now : Nat) (force_refresh : Bool)
    (resp : TrackerResp) : List SEC8KIncident × TrackerState × Bool :=
  if !force_refresh && cacheFresh st now then
    (st.cache, st, false)
  else
    match resp with
    | .fail => (staleReturn st, st, true)
    | .page none => (staleReturn st, st, true)
    | .page (some rows) =>
      let incidents := (rows.drop 1).filterMap parseRow
      (incidents, { cache := incidents, cache_time := some now }, true)

/-! ## Correlator (`check_8k_filing`)

The two Python result dicts are modelled as a fixed-field structure with
`Option` fields for keys that may be absent.  The environment — what
`SECEdgarClient.get_8k_filings` returns for the given CIK, and what
`SEC8KTracker.fetch_incidents` returns — is passed explicitly. -/

/-- An `edgar_result` / `tracker_result` dict. -/
structure SubResult where
  found : Bool
  filing_date : Option PyDate := none
  filing_url : Option String := none
  disclosure_days : Option Int := none
  item : Option String := none
  accession_number : Option String := none
  reason : Option String := none
deriving DecidableEq, Repr

/-- The dict returned by `check_8k_filing`. -/
structure CorrelationResult where
  found : Bool
  filing_date : Option PyDate
  filing_url : Option String
  disclosure_days : Option Int
  source : Option String
  item : Option String
  edgar_result : SubResult
  tracker_result : SubResult
deriving DecidableEq, Repr

instance : Inhabited CorrelationResult :=
  ⟨{ found := false, filing_date := none, filing_url := none,
     disclosure_days := none, source := none, item := none,
     edgar_result := { found := false }, tracker_result := { found := false } }⟩

/-- Python truthiness of the optional `sec_cik` string (`if sec_cik:`):
present and nonempty. -/
def optStrTruthy : Option String → Bool
  | none => false
  | some s => !s.data.isEmpty

/-- The item-extraction loop of `check_8k_filing` (lines 462–466): the first
item containing `"1.05"` yields `item_number = "1.05"`. -/
def item105 (items : List String) : Option String :=
  if items.any (fun it => pyIn "1.05" it) then some "1.05" else none

/-- Lines 450–481: build `edgar_result`.  `edgar_filings` is what
`get_8k_filings(sec_cik, after_date=search_start)` returned. -/
def mkEdgarResult (sec_cik : Option String) (post_date : PyDate)
    (edgar_filings : List SECEdgarFiling) : SubResult :=
  if optStrTruthy sec_cik then
    -- search_start = post_date - timedelta(days=365)
    if edgar_filings.isEmpty then { found := false }
    else
      match find_cybersecurity_8k edgar_filings (some (post_date - 365)) with
      | some cyber_8k =>
        { found := true
          filing_date := some cyber_8k.filing_date
          filing_url := some cyber_8k.filing_url
          disclosure_days := some (cyber_8k.filing_date - post_date)
          item := some ((item105 cyber_8k.items).getD "1.05")
          accession_number := some cyber_8k.accession_number }
      | none => { found := false }
  else { found := false, reason := some "no_cik" }

/-- Lines 483–498: build `tracker_result` from the incidents the tracker
returned. -/
def mkTrackerResult (company_name : String) (post_date : PyDate)
    (incidents : List SEC8KIncident) : SubResult :=
  match find_match company_name incidents with
  | some m =>
    { found := true
      filing_date := some m.disclosure_date
      filing_url := some m.detail_url
      disclosure_days := some (m.disclosure_date - post_date)
      item := none }
  | none => { found := false }

/-- Line 508–509 of the merge: when the tracker sub-result is primary, a
truthy `sec_cik` (EDGAR having found nothing) overwrites the tracker dict's
`item` key with the ambiguous-item marker, in place. -/
def trackerItemFix (sec_cik : Option String) (e t : SubResult) : SubResult :=
  if optStrTruthy sec_cik && !e.found then { t with item := some "7.01/8.01" }
  else t

/-- Lines 500–523: determine the primary result and assemble the returned
dict.  Because line 509 mutates the tracker dict in place, the returned
`tracker_result` carries the same fixed-up `item`. -/
def mergeResults (sec_cik : Option String) (e t : SubResult) :
    CorrelationResult :=
  if e.found then
    { found := true
      filing_date := e.filing_date
      filing_url := e.filing_url
      disclosure_days := e.disclosure_days
      source := some "edgar"
      item := e.item
      edgar_result := e
      tracker_result := t }
  else if t.found then
    { found := true
      filing_date := (trackerItemFix sec_cik e t).filing_date
      filing_url := (trackerItemFix sec_cik e t).filing_url
      disclosure_days := (trackerItemFix sec_cik e t).disclosure_days
      source := some "tracker"
      item := (trackerItemFix sec_cik e t).item
      edgar_result := e
      tracker_result := trackerItemFix sec_cik e t }
  else
    { found := false
      filing_date := none
      filing_url := none
      disclosure_days := none
      source := none
      item := none
      edgar_result := e
      tracker_result := t }

/-- `check_8k_filing` (lines 419–523): build both sub-results and merge. -/
def check_8k_filing (company_name : String) (sec_cik : Option String)
    (post_date : PyDate) (edgar_filings : List SECEdgarFiling)
    (incidents : List SEC8KIncident) : CorrelationResult :=
  mergeResults sec_cik (mkEdgarResult sec_cik post_date edgar_filings)
    (mkTrackerResult company_name post_date incidents)

/-! ## Batch correlator (`check_8k_filings_batch`)

`asyncio.gather` runs one task per input and delivers a result list indexed by
task position, whatever order the tasks complete in.  We model a completion
schedule as a list of input indices: tasks finish in schedule order, each
completion appending `(index, result)` to a completion log; `gather`'s output
is then read off the log by input index.  Each batch item carries its own
environment, so individual source failures are ordinary inputs. -/

structure BatchInput where
  company_name : String
  sec_cik : Option String
  post_date : PyDate
  edgar_filings : List SECEdgarFiling
  incidents : List SEC8KIncident
deriving Repr

/-- `check_with_limit`'s body: one correlation for one input. -/
def runCheck (b : BatchInput) : CorrelationResult :=
  check_8k_filing b.company_name b.sec_cik b.post_date b.edgar_filings b.incidents

/-- The per-completion log: task `i` finishing appends `(i, its result)`. -/
def completionLog (inputs : List BatchInput) (sched : List Nat) :
    List (Nat × CorrelationResult) :=
  sched.filterMap (fun i => (inputs[i]?).map (fun b => (i, runCheck b)))

/-- `check_8k_filings_batch` under completion schedule `sched`:
`asyncio.gather` places each task's result at the task's input index. -/
def check_8k_filings_batch (inputs : List BatchInput) (sched : List Nat) :
    List CorrelationResult :=
  (List.range inputs.length).filterMap
    (fun i => (completionLog inputs sched).lookup i)

/-! ## EDGAR rate limiter (`_rate_limited_request`)

Interleaving model of `SECEdgarClient._rate_limited_request` under asyncio:
each lookup task acquires the global `SEC_RATE_LIMIT` semaphore (5 permits),
reads the shared `_last_request_time` once, sleeps until 200 ms past that read
value if necessary, starts its HTTP request, and on completion writes
`_last_request_time` and releases the permit.  Time is in milliseconds; the
scheduler may advance time and interleave tasks arbitrarily between awaits. -/

/-- `SEC_REQUEST_DELAY` (0.2 s) in milliseconds. -/
def SEC_REQUEST_DELAY_MS : Nat := 200

inductive TaskStage where
  | ready
  | acquired
  | readDone (lastSeen : Option Nat)
  | inflight (start : Nat)
  | finished
deriving DecidableEq, Repr

structure RLState where
  now : Nat
  permits : Nat
  lastReq : Option Nat
  tasks : List TaskStage
  starts : List Nat
deriving DecidableEq, Repr

/-- One atomic step of the rate-limiter system. -/
inductive RLStep : RLState → RLState → Prop where
  /-- The event loop lets time pass. -/
  | tick (st : RLState) (t : Nat) (h : st.now ≤ t) :
      RLStep st { st with now := t }
  /-- `async with SEC_RATE_LIMIT:` — task `i` takes a free permit. -/
  | acquire (st : RLState) (i : Nat) (hi : st.tasks[i]? = some .ready)
      (hp : 0 < st.permits) :
      RLStep st { st with tasks := st.tasks.set i .acquired,
                          permits := st.permits - 1 }
  /-- Task `i` reads `self._last_request_time` (lines 81–84). -/
  | readLast (st : RLState) (i : Nat) (hi : st.tasks[i]? = some .acquired) :
      RLStep st { st with tasks := st.tasks.set i (.readDone st.lastReq) }
  /-- Task `i` issues its HTTP request, after sleeping 200 ms past the value
  it READ — not past the current `_last_request_time`. -/
  | start (st : RLState) (i : Nat) (v : Option Nat)
      (hi : st.tasks[i]? = some (.readDone v))
      (hw : ∀ t, v = some t → t + SEC_REQUEST_DELAY_MS ≤ st.now) :
      RLStep st { st with tasks := st.tasks.set i (.inflight st.now),
                          starts := st.now :: st.starts }
  /-- Task `i`'s request completes: it stamps `_last_request_time` (line 93)
  and leaves the semaphore block. -/
  | complete (st : RLState) (i : Nat) (s : Nat)
      (hi : st.tasks[i]? = some (.inflight s)) :
      RLStep st { st with tasks := st.tasks.set i .finished,
                          lastReq := some st.now,
                          permits := st.permits + 1 }

def RLReachable : RLState → RLState → Prop :=
  Relation.ReflTransGen RLStep

/-- `n` back-to-back lookups against the freshly initialised module state
(`SEC_RATE_LIMIT = asyncio.Semaphore(5)`, `_last_request_time = None`). -/
def initRL (n : Nat) : RLState :=
  { now := 0, permits := 5, lastReq := none,
    tasks := List.replicate n .ready, starts := [] }

/-- The spec's spacing requirement on observed request start times:
every two starts lie at least `delayMs` apart. -/
def startsSpaced (delayMs : Nat) (l : List Nat) : Prop :=
  l.Pairwise (fun a b => delayMs ≤ a - b ∨ delayMs ≤ b - a)

instance (delayMs : Nat) (l : List Nat) : Decidable (startsSpaced delayMs l) := by
  unfold startsSpaced; infer_instance

/-! ## Helper lemmas about the correlator -/

theorem mkEdgarResult_found_dates (ck : Option String) (pd : PyDate)
    (fs : List SECEdgarFiling) :
    (mkEdgarResult ck pd fs).found = true →
    ∃ fd, (mkEdgarResult ck pd fs).filing_date = some fd ∧
      (mkEdgarResult ck pd fs).disclosure_days = some (fd - pd) := by
  unfold mkEdgarResult
  split
  · split
    · intro h; simp at h
    · split
      · intro _; exact ⟨_, rfl, rfl⟩
      · intro h; simp at h
  · intro h; simp at h

theorem mkTrackerResult_found_dates (cn : String) (pd : PyDate)
    (incs : List SEC8KIncident) :
    (mkTrackerResult cn pd incs).found = true →
    ∃ fd, (mkTrackerResult cn pd incs).filing_date = some fd ∧
      (mkTrackerResult cn pd incs).disclosure_days = some (fd - pd) := by
  unfold mkTrackerResult
  split
  · intro _; exact ⟨_, rfl, rfl⟩
  · intro h; simp at h

theorem trackerItemFix_found (ck : Option String) (e t : SubResult) :
    (trackerItemFix ck e t).found = t.found := by
  unfold trackerItemFix; split <;> rfl

theorem trackerItemFix_dates (ck : Option String) (e t : SubResult) :
    (trackerItemFix ck e t).filing_date = t.filing_date ∧
    (trackerItemFix ck e t).disclosure_days = t.disclosure_days := by
  unfold trackerItemFix; split <;> exact ⟨rfl, rfl⟩

theorem check_edgar_result_eq (cn : String) (ck : Option String) (pd : PyDate)
    (fs : List SECEdgarFiling) (incs : List SEC8KIncident) :
    (check_8k_filing cn ck pd fs incs).edgar_result = mkEdgarResult ck pd fs := by
  unfold check_8k_filing mergeResults
  split
  · rfl
  · split <;> rfl

theorem check_tracker_found_eq (cn : String) (ck : Option String) (pd : PyDate)
    (fs : List SECEdgarFiling) (incs : List SEC8KIncident) :
    (check_8k_filing cn ck pd fs incs).tracker_result.found
      = (mkTrackerResult cn pd incs).found := by
  unfold check_8k_filing mergeResults
  split
  · rfl
  · split
    · exact trackerItemFix_found ..
    · rfl

/-! ## C1 -/

/-- C1 (confirmed): whenever both the EDGAR sub-result and the tracker
sub-result of a correlation are found, `check_8k_filing` returns a result
whose `source` is `"edgar"` and whose `filing_date` and `filing_url` are the
EDGAR sub-result's, independently of the tracker sub-result's date. -/
theorem c1_edgar_precedence (cn : String) (ck : Option String) (pd : PyDate)
    (fs : List SECEdgarFiling) (incs : List SEC8KIncident)
    (he : (check_8k_filing cn ck pd fs incs).edgar_result.found = true)
    (_ht : (check_8k_filing cn ck pd fs incs).tracker_result.found = true) :
    (check_8k_filing cn ck pd fs incs).source = some "edgar" ∧
    (check_8k_filing cn ck pd fs incs).filing_date
      = (check_8k_filing cn ck pd fs incs).edgar_result.filing_date ∧
    (check_8k_filing cn ck pd fs incs).filing_url
      = (check_8k_filing cn ck pd fs incs).edgar_result.filing_url := by
  rw [check_edgar_result_eq] at he
  unfold check_8k_filing mergeResults
  rw [he]
  exact ⟨rfl, rfl, rfl⟩

/-- Concrete fixture: an 8-K filing carrying Item 1.05, filed 2025-01-10. -/
def exFiling105 : SECEdgarFiling :=
  { cik := "320193", accession_number := "0001-23-456789"
    filing_date := dateOrdinal 2025 1 10, form_type := "8-K"
    primary_document := "doc.htm", items := ["1.05", "9.01"] }

/-- Concrete fixture: an Item 1.05 8-K filed 2025-01-01 (before the
reference date 2025-01-05). -/
def exFilingEarly : SECEdgarFiling :=
  { cik := "320193", accession_number := "0001-23-456790"
    filing_date := dateOrdinal 2025 1 1, form_type := "8-K"
    primary_document := "early.htm", items := ["1.05"] }

/-- Concrete fixture: a tracker incident for ACME, disclosed 2025-01-12
(a date different from `exFiling105`'s). -/
def exIncident : SEC8KIncident :=
  { company_name := "ACME INC", disclosure_date := dateOrdinal 2025 1 12
    last_update := dateOrdinal 2025 1 12
    detail_url := "https://www.board-cybersecurity.com/incidents/tracker/acme" }

/-- Witness for C1: a correlation where both sources find a match, the two
dates differ, and the result is the EDGAR one. -/
theorem c1_edgar_precedence_witness :
    (check_8k_filing "Acme, Inc." (some "320193") (dateOrdinal 2025 1 5)
        [exFiling105] [exIncident]).tracker_result.filing_date ≠
      (check_8k_filing "Acme, Inc." (some "320193") (dateOrdinal 2025 1 5)
        [exFiling105] [exIncident]).edgar_result.filing_date ∧
    ((check_8k_filing "Acme, Inc." (some "320193") (dateOrdinal 2025 1 5)
        [exFiling105] [exIncident]).source = some "edgar" ∧
     (check_8k_filing "Acme, Inc." (some "320193") (dateOrdinal 2025 1 5)
        [exFiling105] [exIncident]).filing_date
       = (check_8k_filing "Acme, Inc." (some "320193") (dateOrdinal 2025 1 5)
        [exFiling105] [exIncident]).edgar_result.filing_date ∧
     (check_8k_filing "Acme, Inc." (some "320193") (dateOrdinal 2025 1 5)
        [exFiling105] [exIncident]).filing_url
       = (check_8k_filing "Acme, Inc." (some "320193") (dateOrdinal 2025 1 5)
        [exFiling105] [exIncident]).edgar_result.filing_url) :=
  ⟨by decide,
   c1_edgar_precedence "Acme, Inc." (some "320193") (dateOrdinal 2025 1 5)
     [exFiling105] [exIncident] (by decide) (by decide)⟩

/-! ## C2 -/

/-- C2 (confirmed): when a (truthy) registrant identifier was supplied, the
EDGAR sub-result is not-found and the tracker sub-result is found,
`check_8k_filing`'s returned `item` is the ambiguous-item marker
`"7.01/8.01"` and not `"1.05"`. -/
theorem c2_tracker_only_ambiguous_item (cn : String) (c : String) (pd : PyDate)
    (fs : List SECEdgarFiling) (incs : List SEC8KIncident)
    (hc : c ≠ "")
    (he : (check_8k_filing cn (some c) pd fs incs).edgar_result.found = false)
    (ht : (check_8k_filing cn (some c) pd fs incs).tracker_result.found = true) :
    (check_8k_filing cn (some c) pd fs incs).item = some "7.01/8.01" ∧
    (check_8k_filing cn (some c) pd fs incs).item ≠ some "1.05" := by
  have hck : optStrTruthy (some c) = true := by
    cases c with
    | mk l =>
      cases l with
      | nil => exact absurd rfl hc
      | cons a as => rfl
  rw [check_edgar_result_eq] at he
  rw [check_tracker_found_eq] at ht
  unfold check_8k_filing mergeResults
  simp only [he, ht, Bool.false_eq_true, if_false, if_true]
  unfold trackerItemFix
  simp [hck, he]

/-- Witness for C2: registrant id supplied, EDGAR given no filings (the 404 /
no-recent-filings path returns `[]`), tracker matches. -/
theorem c2_tracker_only_ambiguous_item_witness :
    (check_8k_filing "Acme, Inc." (some "320193") (dateOrdinal 2025 1 5)
        [] [exIncident]).item = some "7.01/8.01" ∧
    (check_8k_filing "Acme, Inc." (some "320193") (dateOrdinal 2025 1 5)
        [] [exIncident]).item ≠ some "1.05" :=
  c2_tracker_only_ambiguous_item "Acme, Inc." "320193" (dateOrdinal 2025 1 5)
    [] [exIncident] (by decide) (by decide) (by decide)

/-! ## C3 -/

/-- C3 (confirmed): whenever a correlation finds a match, `disclosure_days`
is exactly the signed ordinal difference `filing_date - reference_date`
(negative when filed before the reference date), and when no match is found
neither a filing date nor a day count is produced. -/
theorem c3_disclosure_days_signed (cn : String) (ck : Option String) (pd : PyDate)
    (fs : List SECEdgarFiling) (incs : List SEC8KIncident) :
    ((check_8k_filing cn ck pd fs incs).found = true →
      ∃ fd, (check_8k_filing cn ck pd fs incs).filing_date = some fd ∧
        (check_8k_filing cn ck pd fs incs).disclosure_days = some (fd - pd)) ∧
    ((check_8k_filing cn ck pd fs incs).found = false →
      (check_8k_filing cn ck pd fs incs).filing_date = none ∧
      (check_8k_filing cn ck pd fs incs).disclosure_days = none) := by
  unfold check_8k_filing mergeResults
  split
  case isTrue he =>
    refine ⟨fun _ => ?_, fun hf => by simp at hf⟩
    obtain ⟨fd, h1, h2⟩ := mkEdgarResult_found_dates ck pd fs he
    exact ⟨fd, h1, h2⟩
  case isFalse he =>
    split
    case isTrue ht =>
      refine ⟨fun _ => ?_, fun hf => by simp at hf⟩
      obtain ⟨fd, h1, h2⟩ := mkTrackerResult_found_dates cn pd incs ht
      refine ⟨fd, ?_, ?_⟩
      · show (trackerItemFix ck _ _).filing_date = some fd
        rw [(trackerItemFix_dates ck _ _).1]; exact h1
      · show (trackerItemFix ck _ _).disclosure_days = some (fd - pd)
        rw [(trackerItemFix_dates ck _ _).2]; exact h2
    case isFalse =>
      exact ⟨fun h => by simp at h, fun _ => ⟨rfl, rfl⟩⟩

/-- Witness for C3: filing 2025-01-10 against reference 2025-01-05 gives
`disclosure_days = 5`; filing 2025-01-01 against the same reference gives
`-4`; and the theorem's found-case applies at the first input. -/
theorem c3_disclosure_days_signed_witness :
    (check_8k_filing "Acme, Inc." (some "320193") (dateOrdinal 2025 1 5)
        [exFiling105] []).disclosure_days = some 5 ∧
    (check_8k_filing "Acme, Inc." (some "320193") (dateOrdinal 2025 1 5)
        [exFilingEarly] []).disclosure_days = some (-4) ∧
    (∃ fd, (check_8k_filing "Acme, Inc." (some "320193") (dateOrdinal 2025 1 5)
        [exFiling105] []).filing_date = some fd ∧
      (check_8k_filing "Acme, Inc." (some "320193") (dateOrdinal 2025 1 5)
        [exFiling105] []).disclosure_days = some (fd - dateOrdinal 2025 1 5)) :=
  ⟨by decide, by decide,
   (c3_disclosure_days_signed "Acme, Inc." (some "320193") (dateOrdinal 2025 1 5)
     [exFiling105] []).1 (by decide)⟩

/-! ## C4 -/

/-- A filing passes the loop's filters when it is not skipped by the
`after_date` check and some item code contains `"1.05"` as a substring. -/
def filingEligible (after_date : Option PyDate) (f : SECEdgarFiling) : Bool :=
  !skippedByAfter after_date f && filingHas105 f

theorem find_cyber_spec (filings : List SECEdgarFiling)
    (after_date : Option PyDate) :
    (∀ f, find_cybersecurity_8k filings after_date = some f →
      filingEligible after_date f = true ∧
      ∃ pre post, filings = pre ++ f :: post ∧
        ∀ g ∈ pre, filingEligible after_date g = false) ∧
    (find_cybersecurity_8k filings after_date = none ↔
      ∀ f ∈ filings, filingEligible after_date f = false) := by
  induction filings with
  | nil =>
    constructor
    · intro f h; simp [find_cybersecurity_8k] at h
    · simp [find_cybersecurity_8k]
  | cons a rest ih =>
    by_cases hskip : skippedByAfter after_date a = true
    · have hfind : find_cybersecurity_8k (a :: rest) after_date
          = find_cybersecurity_8k rest after_date := by
        simp [find_cybersecurity_8k, hskip]
      have helig : filingEligible after_date a = false := by
        unfold filingEligible; rw [hskip]; rfl
      constructor
      · intro f h
        rw [hfind] at h
        obtain ⟨he, pre, post, heq, hpre⟩ := ih.1 f h
        refine ⟨he, a :: pre, post, by rw [heq]; rfl, ?_⟩
        intro g hg
        rcases List.mem_cons.mp hg with rfl | hg'
        · exact helig
        · exact hpre g hg'
      · rw [hfind, ih.2]
        constructor
        · intro hall f hf
          rcases List.mem_cons.mp hf with rfl | hf'
          · exact helig
          · exact hall f hf'
        · intro hall f hf; exact hall f (List.mem_cons_of_mem a hf)
    · have hskip' : skippedByAfter after_date a = false := by
        cases h : skippedByAfter after_date a
        · rfl
        · exact absurd h hskip
      by_cases h105 : filingHas105 a = true
      · have hfind : find_cybersecurity_8k (a :: rest) after_date = some a := by
          simp [find_cybersecurity_8k, hskip', h105]
        have helig : filingEligible after_date a = true := by
          unfold filingEligible; rw [hskip', h105]; rfl
        constructor
        · intro f h
          rw [hfind] at h
          injection h with h
          subst h
          refine ⟨helig, [], rest, rfl, ?_⟩
          intro g hg; simp at hg
        · rw [hfind]
          constructor
          · intro h; exact Option.noConfusion h
          · intro hall
            have hfa := hall a (List.mem_cons_self a rest)
            rw [helig] at hfa
            exact Bool.noConfusion hfa
      · have h105' : filingHas105 a = false := by
          cases h : filingHas105 a
          · rfl
          · exact absurd h h105
        have hfind : find_cybersecurity_8k (a :: rest) after_date
            = find_cybersecurity_8k rest after_date := by
          simp [find_cybersecurity_8k, hskip', h105']
        have helig : filingEligible after_date a = false := by
          unfold filingEligible; rw [hskip', h105']; simp
        constructor
        · intro f h
          rw [hfind] at h
          obtain ⟨he, pre, post, heq, hpre⟩ := ih.1 f h
          refine ⟨he, a :: pre, post, by rw [heq]; rfl, ?_⟩
          intro g hg
          rcases List.mem_cons.mp hg with rfl | hg'
          · exact helig
          · exact hpre g hg'
        · rw [hfind, ih.2]
          constructor
          · intro hall f hf
            rcases List.mem_cons.mp hf with rfl | hf'
            · exact helig
            · exact hall f hf'
          · intro hall f hf; exact hall f (List.mem_cons_of_mem a hf)

/-- Concrete fixture: a filing whose only item is the hypothetical code
`"11.05"`, which contains `"1.05"` as a substring without being it. -/
def c4Filing1105 : SECEdgarFiling :=
  { cik := "99", accession_number := "0001-23-000001"
    filing_date := dateOrdinal 2025 3 1, form_type := "8-K"
    primary_document := "x.htm", items := ["11.05"] }

/-- Counterexample for C4: `find_cybersecurity_8k` returns a filing whose
item set does NOT contain `"1.05"` — its single item is `"11.05"`, matched
because line 210 tests `"1.05" in item` by substring. -/
theorem c4_substring_item_counterexample :
    find_cybersecurity_8k [c4Filing1105] none = some c4Filing1105 ∧
    "1.05" ∉ c4Filing1105.items := by
  exact ⟨by decide, by decide⟩

/-- Concrete fixture: a filing carrying only the softer disclosure codes. -/
def c4SoftFiling : SECEdgarFiling :=
  { cik := "99", accession_number := "0001-23-000002"
    filing_date := dateOrdinal 2025 3 2, form_type := "8-K"
    primary_document := "y.htm", items := ["7.01", "8.01"] }

/-- C4 (corrected): `find_cybersecurity_8k` returns the earliest-appearing
filing, restricted to filings with `filing_date` on or after `after_date`,
whose item list has an entry CONTAINING `"1.05"` as a substring (not
necessarily equal to it); it returns none exactly when no filing qualifies,
and never returns a filing carrying only the softer codes `"7.01"`/`"8.01"`. -/
theorem c4_find_cyber_first_match (filings : List SECEdgarFiling)
    (after_date : Option PyDate) :
    (∀ f, find_cybersecurity_8k filings after_date = some f →
      filingEligible after_date f = true ∧
      ∃ pre post, filings = pre ++ f :: post ∧
        ∀ g ∈ pre, filingEligible after_date g = false) ∧
    (find_cybersecurity_8k filings after_date = none ↔
      ∀ f ∈ filings, filingEligible after_date f = false) ∧
    (∀ f, (∀ it ∈ f.items, it = "7.01" ∨ it = "8.01") →
      find_cybersecurity_8k filings after_date ≠ some f) := by
  refine ⟨(find_cyber_spec filings after_date).1,
    (find_cyber_spec filings after_date).2, ?_⟩
  intro f hsoft hfind
  obtain ⟨helig, -⟩ := (find_cyber_spec filings after_date).1 f hfind
  simp only [filingEligible, Bool.and_eq_true] at helig
  have h105 : filingHas105 f = true := helig.2
  unfold filingHas105 at h105
  obtain ⟨it, hit, hin⟩ := List.any_eq_true.mp h105
  rcases hsoft it hit with rfl | rfl
  · exact absurd hin (by decide)
  · exact absurd hin (by decide)

/-- Witness for C4 at a concrete list: the soft-codes-only filing is passed
over and the Item 1.05 filing behind it is returned. -/
theorem c4_find_cyber_first_match_witness :
    filingEligible none exFiling105 = true ∧
    ∃ pre post, [c4SoftFiling, exFiling105] = pre ++ exFiling105 :: post ∧
      ∀ g ∈ pre, filingEligible none g = false :=
  (c4_find_cyber_first_match [c4SoftFiling, exFiling105] none).1 exFiling105
    (by decide)

/-! ## C5 -/

/-- Counterexample for C5: `_normalize_name` is not idempotent for every
string — punctuation removal (run after suffix stripping) can expose a
trailing corporate suffix that only a second pass strips:
`_normalize_name "ACME (INC)" = "ACME INC"` but renormalizing gives `"ACME"`. -/
theorem c5_not_idempotent_counterexample :
    _normalize_name (_normalize_name "ACME (INC)")
      ≠ _normalize_name "ACME (INC)" := by decide

/-- C5 (corrected): the claim's concrete equation does hold —
`"Acme, Inc."` and `"ACME INC"` normalize to the same string (`"ACME"`), and
renormalizing that particular output returns it unchanged — but idempotence
fails for general inputs (see the counterexample). -/
theorem c5_normalize_examples :
    _normalize_name "Acme, Inc." = _normalize_name "ACME INC" ∧
    _normalize_name (_normalize_name "Acme, Inc.") = _normalize_name "Acme, Inc." := by
  exact ⟨by decide, by decide⟩

/-! ## C6 -/

/-- Concrete fixture: tracker incident "GLOBAL CORP", whose normalized name
is `"GLOBAL"` after suffix stripping. -/
def c6GlobalCorp : SEC8KIncident :=
  { company_name := "GLOBAL CORP", disclosure_date := dateOrdinal 2025 2 1
    last_update := dateOrdinal 2025 2 1, detail_url := "" }

/-- Counterexample for C6: for query `"GLOBAL WIDGETS"` and incident
`"GLOBAL CORP"`, `find_match` DOES return the incident — the suffix-stripped
incident name `"GLOBAL"` is a substring of `"GLOBAL WIDGETS"`, so the
substring rule (line 347) fires before the word-overlap rule is reached. -/
theorem c6_substring_match_counterexample :
    find_match "GLOBAL WIDGETS" [c6GlobalCorp] = some c6GlobalCorp := by decide

/-- Concrete fixture used in the amended C6: one shared token and no
substring relation between the normalized names. -/
def c6GlobalFoods : SEC8KIncident :=
  { company_name := "GLOBAL FOODS", disclosure_date := dateOrdinal 2025 2 1
    last_update := dateOrdinal 2025 2 1, detail_url := "" }

/-- C6 (corrected): whenever `find_match` matches an incident and none of the
exact/substring rules apply to the normalized names, the word-overlap rule
must have fired: both names have at least 2 significant tokens after stoplist
removal and share at least 2; and a pair sharing only the token `"GLOBAL"`
with no substring relation — `"GLOBAL WIDGETS"` vs `"GLOBAL FOODS"` — yields
no match.  (The claim's own example pair matches via the substring rule.) -/
theorem c6_word_overlap_rule :
    (∀ (q : String) (inc : SEC8KIncident),
      find_match q [inc] = some inc →
      (_normalize_name q == _normalize_name inc.company_name) = false →
      pyIn (_normalize_name q) (_normalize_name inc.company_name) = false →
      pyIn (_normalize_name inc.company_name) (_normalize_name q) = false →
      2 ≤ (sigWords (_normalize_name q)).length ∧
      2 ≤ (sigWords (_normalize_name inc.company_name)).length ∧
      2 ≤ ((sigWords (_normalize_name q)).filter
            (fun w => (sigWords (_normalize_name inc.company_name)).contains w)).length) ∧
    find_match "GLOBAL WIDGETS" [c6GlobalFoods] = none := by
  constructor
  · intro q inc hfind hne hs1 hs2
    have hm : nameMatches (_normalize_name q)
        (_normalize_name inc.company_name) = true := by
      unfold find_match at hfind
      cases h : nameMatches (_normalize_name q) (_normalize_name inc.company_name)
      · rw [List.find?_cons_of_neg _ (by simp [h]), List.find?_nil] at hfind
        exact Option.noConfusion hfind
      · rfl
    unfold nameMatches at hm
    rw [hne, hs1, hs2] at hm
    simp only [Bool.false_or, Bool.and_eq_true, decide_eq_true_eq] at hm
    exact ⟨hm.1.1, hm.1.2, hm.2⟩
  · decide

/-- Concrete fixture for the C6 witness: shares the two significant tokens
`"ALPHA"` and `"BETA"` with the query, with no substring relation. -/
def c6AlphaBetaDelta : SEC8KIncident :=
  { company_name := "ALPHA BETA DELTA", disclosure_date := dateOrdinal 2025 2 1
    last_update := dateOrdinal 2025 2 1, detail_url := "" }

/-- Witness for C6: a match produced by the word-overlap rule satisfies the
token-count conclusions at a concrete input. -/
theorem c6_word_overlap_rule_witness :
    2 ≤ (sigWords (_normalize_name "ALPHA BETA GAMMA")).length ∧
    2 ≤ (sigWords (_normalize_name c6AlphaBetaDelta.company_name)).length ∧
    2 ≤ ((sigWords (_normalize_name "ALPHA BETA GAMMA")).filter
          (fun w => (sigWords (_normalize_name c6AlphaBetaDelta.company_name)).contains w)).length :=
  c6_word_overlap_rule.1 "ALPHA BETA GAMMA" c6AlphaBetaDelta
    (by decide) (by decide) (by decide) (by decide)

/-! ## Helper lemmas about the tracker cache -/

theorem staleReturn_eq (st : TrackerState) : staleReturn st = st.cache := by
  unfold staleReturn
  rcases st with ⟨cache, ct⟩
  cases cache <;> rfl

/-- A cache that fails the freshness test keeps failing it at any later
time: its age only grows. -/
theorem cacheFresh_mono (st : TrackerState) (t1 t2 : Nat) (h12 : t1 ≤ t2)
    (h : cacheFresh st t1 = false) : cacheFresh st t2 = false := by
  unfold cacheFresh at h ⊢
  cases hce : st.cache.isEmpty
  · rw [hce] at h
    simp only [Bool.not_false, Bool.true_and] at h ⊢
    cases hct : st.cache_time with
    | none => rfl
    | some t0 =>
      rw [hct] at h
      simp only [decide_eq_false_iff_not, not_lt] at h ⊢
      exact le_trans h (Nat.sub_le_sub_right h12 t0)
  · rfl

/-- A forced call always issues a network request. -/
theorem fetch_incidents_forced (st : TrackerState) (now : Nat)
    (r : TrackerResp) : (fetch_incidents st now true r).2.2 = true := by
  unfold fetch_incidents
  rw [if_neg (by simp)]
  cases r with
  | fail => rfl
  | page o => cases o with
    | none => rfl
    | some rows => rfl

/-! ## C7 -/

/-- Concrete fixture: a fetched tracker page whose table holds only the
header row, so the row loop parses zero incidents. -/
def c7HeaderOnlyPage : TrackerResp :=
  .page (some [[⟨"Last Update", none⟩, ⟨"Disclosure Date", none⟩, ⟨"Company", none⟩]])

/-- Counterexample for C7: from the empty initial tracker state, a first
unforced call at t = 0 succeeds but parses zero incidents (header-only
table); because line 246's freshness test requires a truthy — NONEMPTY —
`self._cache`, a second unforced call one hour later issues a second
network request.  Two unforced calls within 24 hours thus made two requests. -/
theorem c7_two_requests_counterexample :
    (fetch_incidents ⟨[], none⟩ 0 false c7HeaderOnlyPage).2.2 = true ∧
    (fetch_incidents (fetch_incidents ⟨[], none⟩ 0 false c7HeaderOnlyPage).2.1
        3600 false .fail).2.2 = true := by
  exact ⟨by decide, by decide⟩

/-- C7 (corrected): two unforced `fetch_incidents` calls within 24 hours
issue at most one network request PROVIDED that if the first call fetches,
its fetch succeeds and parses at least one incident (so that the nonempty
snapshot gets cached and stamped); and a call with `force_refresh = true`
always issues a network request regardless of cache age. -/
theorem c7_cache_freshness (st0 : TrackerState) (t1 t2 : Nat)
    (r1 r2 : TrackerResp)
    (hfresh : t2 - t1 < CACHE_TTL)
    (hsucc : (fetch_incidents st0 t1 false r1).2.2 = true →
      ∃ rows, r1 = .page (some rows) ∧ (rows.drop 1).filterMap parseRow ≠ []) :
    ¬((fetch_incidents st0 t1 false r1).2.2 = true ∧
      (fetch_incidents (fetch_incidents st0 t1 false r1).2.1 t2 false r2).2.2
        = true) ∧
    (∀ (st : TrackerState) (now : Nat) (r : TrackerResp),
      (fetch_incidents st now true r).2.2 = true) := by
  refine ⟨?_, fun st now r => fetch_incidents_forced st now r⟩
  rintro ⟨hq1, hq2⟩
  obtain ⟨rows, hr1, hne⟩ := hsucc hq1
  subst hr1
  by_cases hc : (!false && cacheFresh st0 t1) = true
  · have hzero : (fetch_incidents st0 t1 false (.page (some rows))).2.2 = false := by
      unfold fetch_incidents; rw [if_pos hc]
    rw [hzero] at hq1
    exact Bool.noConfusion hq1
  · have hst : (fetch_incidents st0 t1 false (.page (some rows))).2.1
        = ⟨(rows.drop 1).filterMap parseRow, some t1⟩ := by
      unfold fetch_incidents; rw [if_neg hc]
    have hne' : ((rows.drop 1).filterMap parseRow).isEmpty = false := by
      cases h : (rows.drop 1).filterMap parseRow
      · exact absurd h hne
      · rfl
    have hc2 : (!false &&
        cacheFresh ⟨(rows.drop 1).filterMap parseRow, some t1⟩ t2) = true := by
      show (!false && (!((rows.drop 1).filterMap parseRow).isEmpty &&
        decide (t2 - t1 < CACHE_TTL))) = true
      rw [hne', decide_eq_true hfresh]
      rfl
    rw [hst] at hq2
    unfold fetch_incidents at hq2
    rw [if_pos hc2] at hq2
    exact Bool.noConfusion hq2

/-- Concrete fixtures for the C7 witness: a page with a header row and one
well-formed incident row. -/
def c7GoodRow : TRow :=
  [⟨"2025-01-02", none⟩, ⟨"2025-01-03", none⟩,
   ⟨"Acme Corp", some ⟨"Acme Corp", "acme"⟩⟩]

def c7GoodPage : List TRow :=
  [[⟨"Last Update", none⟩, ⟨"Disclosure Date", none⟩, ⟨"Company", none⟩],
   c7GoodRow]

/-- Witness for C7: with a successful nonempty first fetch at t = 0, the
second unforced call one hour later does not fetch, and forced calls always
fetch. -/
theorem c7_cache_freshness_witness :
    ¬((fetch_incidents ⟨[], none⟩ 0 false (.page (some c7GoodPage))).2.2 = true ∧
      (fetch_incidents (fetch_incidents ⟨[], none⟩ 0 false
          (.page (some c7GoodPage))).2.1 3600 false .fail).2.2 = true) ∧
    (∀ (st : TrackerState) (now : Nat) (r : TrackerResp),
      (fetch_incidents st now true r).2.2 = true) :=
  c7_cache_freshness ⟨[], none⟩ 0 3600 (.page (some c7GoodPage)) .fail
    (by decide) (fun _ => ⟨c7GoodPage, rfl, by decide⟩)

/-! ## C10 -/

/-- Concrete fixture: a fresh, nonempty tracker cache stamped at t = 0. -/
def c10FreshState : TrackerState := ⟨[exIncident], some 0⟩

/-- Counterexample for C10's consequence clause: when a FORCED refresh fails
over a still-fresh nonempty cache, the state is indeed left unchanged, but
the very next unforced call serves the still-fresh cache WITHOUT attempting
the network — contradicting "the very next call attempts the network again". -/
theorem c10_forced_failure_counterexample :
    (fetch_incidents c10FreshState 10 true .fail).2.2 = true ∧
    (fetch_incidents c10FreshState 10 true .fail).2.1 = c10FreshState ∧
    (fetch_incidents (fetch_incidents c10FreshState 10 true .fail).2.1
        20 false .fail).2.2 = false := by
  exact ⟨by decide, by decide, by decide⟩

/-- C10 (corrected): when a refresh that actually issued a network request
fails (HTTP error or a page without a table), `fetch_incidents` returns the
stale cache contents (the empty list if none) and leaves the cache and its
timestamp completely unchanged; and if that failing call was UNFORCED, any
later unforced call issues a network request again (the failure is not
treated as a fresh snapshot).  After a failing FORCED refresh over a
still-fresh cache, however, the next unforced call serves the cache. -/
theorem c10_failure_preserves_cache (st : TrackerState) (now : Nat)
    (force : Bool) (resp : TrackerResp)
    (hfail : resp = .fail ∨ resp = .page none)
    (hissued : (fetch_incidents st now force resp).2.2 = true) :
    (fetch_incidents st now force resp).1 = st.cache ∧
    (fetch_incidents st now force resp).2.1 = st ∧
    (force = false → ∀ (t2 : Nat) (r2 : TrackerResp), now ≤ t2 →
      (fetch_incidents st t2 false r2).2.2 = true) := by
  by_cases hc : (!force && cacheFresh st now) = true
  · have hzero : (fetch_incidents st now force resp).2.2 = false := by
      unfold fetch_incidents; rw [if_pos hc]
    rw [hzero] at hissued
    exact Bool.noConfusion hissued
  · have heval : fetch_incidents st now force resp = (staleReturn st, st, true) := by
      unfold fetch_incidents
      rw [if_neg hc]
      rcases hfail with rfl | rfl <;> rfl
    refine ⟨by rw [heval]; exact staleReturn_eq st, by rw [heval], ?_⟩
    intro hforce t2 r2 h12
    subst hforce
    have hcf : cacheFresh st now = false := by
      cases h : cacheFresh st now
      · rfl
      · exact absurd (by simp [h]) hc
    have hcf2 : cacheFresh st t2 = false := cacheFresh_mono st now t2 h12 hcf
    unfold fetch_incidents
    rw [if_neg (by simp [hcf2])]
    cases r2 with
    | fail => rfl
    | page o => cases o with
      | none => rfl
      | some rows => rfl

/-- Witness for C10: an expired nonempty cache, an unforced failing fetch —
the stale list is served, the state is untouched, and any later unforced
call fetches again. -/
theorem c10_failure_preserves_cache_witness :
    (fetch_incidents ⟨[exIncident], some 0⟩ 100000 false .fail).1
      = (⟨[exIncident], some 0⟩ : TrackerState).cache ∧
    (fetch_incidents ⟨[exIncident], some 0⟩ 100000 false .fail).2.1
      = (⟨[exIncident], some 0⟩ : TrackerState) ∧
    (false = false → ∀ (t2 : Nat) (r2 : TrackerResp), 100000 ≤ t2 →
      (fetch_incidents ⟨[exIncident], some 0⟩ t2 false r2).2.2 = true) :=
  c10_failure_preserves_cache ⟨[exIncident], some 0⟩ 100000 false .fail
    (Or.inl rfl) (by decide)

/-! ## C8 -/

/-- C8 (code bug): the 200 ms inter-request spacing is NOT enforced across
concurrently admitted requests.  `_rate_limited_request` reads the shared
`_last_request_time` before sleeping and only writes it after its own request
completes, without any mutual exclusion beyond the 5-permit semaphore; two
lookups admitted together both read the same (here: unset) timestamp, compute
no sleep, and start simultaneously.  Exhibited: a reachable state of the
20-lookup system whose two recorded request starts are 0 ms apart, violating
the spacing requirement. -/
theorem c8_concurrent_starts_violate_spacing :
    ∃ s : RLState, RLReachable (initRL 20) s ∧ s.starts = [0, 0] ∧
      ¬ startsSpaced SEC_REQUEST_DELAY_MS s.starts := by
  have hchain := Relation.ReflTransGen.head
    (RLStep.acquire (initRL 20) 0 (by decide) (by decide))
    (Relation.ReflTransGen.head
      (RLStep.acquire _ 1 (by decide) (by decide))
      (Relation.ReflTransGen.head
        (RLStep.readLast _ 0 (by decide))
        (Relation.ReflTransGen.head
          (RLStep.readLast _ 1 (by decide))
          (Relation.ReflTransGen.head
            (RLStep.start _ 0 none (by decide) (fun t ht => nomatch ht))
            (Relation.ReflTransGen.head
              (RLStep.start _ 1 none (by decide) (fun t ht => nomatch ht))
              (Relation.ReflTransGen.refl))))))
  exact ⟨_, hchain, by decide, by decide⟩

/-! ## C9 -/

theorem completionLog_lookup (inputs : List BatchInput) (sched : List Nat)
    (i : Nat) (b : BatchInput) (hib : inputs[i]? = some b) :
    i ∈ sched → (completionLog inputs sched).lookup i = some (runCheck b) := by
  induction sched with
  | nil => intro hmem; exact absurd hmem (List.not_mem_nil i)
  | cons j rest ih =>
    intro hmem
    unfold completionLog
    rw [List.filterMap_cons]
    by_cases hji : j = i
    · subst hji
      rw [hib]
      simp [List.lookup]
    · have hmem' : i ∈ rest := by
        rcases List.mem_cons.mp hmem with h | h
        · exact absurd h (fun hh => hji hh.symm)
        · exact h
      have hbeq : (i == j) = false :=
        beq_eq_false_iff_ne.mpr (fun h => hji h.symm)
      cases hj : inputs[j]? with
      | none =>
        simp only [Option.map_none']
        exact ih hmem'
      | some b' =>
        simp only [Option.map_some']
        simpa [List.lookup, hbeq] using ih hmem'

theorem filterMap_congr_some {α β : Type} (l : List α) (F : α → Option β)
    (G : α → β) (h : ∀ a ∈ l, F a = some (G a)) : l.filterMap F = l.map G := by
  induction l with
  | nil => rfl
  | cons a t ih =>
    simp only [List.filterMap_cons, h a (List.mem_cons_self a t), List.map_cons]
    rw [ih (fun x hx => h x (List.mem_cons_of_mem a hx))]

/-- C9 (confirmed): under any completion schedule that completes every task,
`check_8k_filings_batch` returns exactly one result per input, in input
order: the output is the input list mapped through the single-item
correlation, its length is the input length, and the i-th result is the
correlation of the i-th input. -/
theorem c9_batch_order (inputs : List BatchInput) (sched : List Nat)
    (hcover : ∀ i < inputs.length, i ∈ sched) :
    check_8k_filings_batch inputs sched = inputs.map runCheck ∧
    (check_8k_filings_batch inputs sched).length = inputs.length ∧
    (∀ i : Nat, (check_8k_filings_batch inputs sched)[i]?
      = (inputs[i]?).map runCheck) := by
  have hmain : check_8k_filings_batch inputs sched = inputs.map runCheck := by
    unfold check_8k_filings_batch
    rw [filterMap_congr_some (List.range inputs.length) _
      (fun i => ((inputs[i]?).map runCheck).getD default) ?hcl]
    case hcl =>
      intro i hi
      have hilt : i < inputs.length := List.mem_range.mp hi
      rw [completionLog_lookup inputs sched i _
        (List.getElem?_eq_getElem hilt) (hcover i hilt)]
      simp only [List.getElem?_eq_getElem hilt, Option.map_some', Option.getD_some]
    · apply List.ext_getElem
      · simp
      · intro i h1 h2
        rw [List.getElem_map, List.getElem_map, List.getElem_range]
        have hilt : i < inputs.length := by simpa using h2
        rw [List.getElem?_eq_getElem hilt]
        rfl
  refine ⟨hmain, by rw [hmain]; simp, ?_⟩
  intro i
  rw [hmain]
  exact List.getElem?_map runCheck inputs i

/-- Concrete batch inputs for the C9 witness, each with its own environment
(the second input's sources both fail / return nothing). -/
def c9Inputs : List BatchInput :=
  [⟨"Acme, Inc.", some "320193", dateOrdinal 2025 1 5, [exFiling105], [exIncident]⟩,
   ⟨"Beta LLC", none, dateOrdinal 2025 1 6, [], []⟩,
   ⟨"Gamma Widgets", some "7", dateOrdinal 2025 1 7, [], [exIncident]⟩]

/-- Witness for C9: a 3-input batch under the out-of-order completion
schedule [2, 0, 1] still returns the three correlations in input order. -/
theorem c9_batch_order_witness :
    check_8k_filings_batch c9Inputs [2, 0, 1] = c9Inputs.map runCheck ∧
    (check_8k_filings_batch c9Inputs [2, 0, 1]).length = c9Inputs.length ∧
    (∀ i : Nat, (check_8k_filings_batch c9Inputs [2, 0, 1])[i]?
      = (c9Inputs[i]?).map runCheck) :=
  c9_batch_order c9Inputs [2, 0, 1] (by decide)

end SEC8K
